import Mathlib

/-
Verification development for the LaTeX2AI environment-configuration manager
(`src/src/l2a_global.cpp`).  The manager's persisted state, its XML key/value
settings contract, its validation predicates and its interactive repair loops
are embedded as executable Lean definitions; external collaborators (command
execution, file dialogs, the filesystem) are passed in as explicit oracles,
mirroring the spec's collaborator contracts.
-/

namespace L2A

/-- Modelled from the spec: the settings-document codec (`l2a_parameter_list`,
not among the analysed sources) stores a flat key/value map whose values are
strings, paths-as-strings, or integers (booleans are persisted as integers). -/
inductive PVal where
  | str (s : String)
  | int (i : Int)
deriving DecidableEq

/-- Modelled from the spec: a parameter list is a flat key/value map. -/
abbrev ParameterList := List (String × PVal)

/-- Modelled from the spec: look up the value stored under a key. -/
def findVal : ParameterList → String → Option PVal
  | [], _ => none
  | p :: rest, key => if p.1 = key then some p.2 else findVal rest key

/-- Modelled from the spec: `SetOption` stores a value under a key, replacing
any previous binding for that key. -/
def SetOption (pl : ParameterList) (key : String) (v : PVal) : ParameterList :=
  (key, v) :: pl.filter (fun p => p.1 != key)

/-- Modelled from the spec: the `SetOption` overload taking a boolean stores
it as the integer 1 or 0. -/
def SetOptionBool (pl : ParameterList) (key : String) (b : Bool) : ParameterList :=
  SetOption pl key (PVal.int (if b then 1 else 0))

/-- Modelled from the spec: `OptionExists` reports whether a key is present. -/
def OptionExists (pl : ParameterList) (key : String) : Bool :=
  (findVal pl key).isSome

/-- Modelled from the spec: `GetStringOption` returns the string stored under
a key (only called on keys whose existence was checked). -/
def GetStringOption (pl : ParameterList) (key : String) : String :=
  match findVal pl key with
  | some (PVal.str s) => s
  | _ => ""

/-- Modelled from the spec: `GetIntOption` returns the integer stored under a
key (only called on keys whose existence was checked). -/
def GetIntOption (pl : ParameterList) (key : String) : Int :=
  match findVal pl key with
  | some (PVal.int i) => i
  | _ => 0

/-- Remove one key from a parameter list (used to state the missing-key
claims). -/
def removeKey (key : String) (pl : ParameterList) : ParameterList :=
  pl.filter (fun p => p.1 != key)

/-- The C++ conversion from `int` to `bool`: nonzero means true
(`bool(parameter_list.GetIntOption(value))` in the source). -/
def cppBool (i : Int) : Bool := i != 0

/-- The six persisted configuration fields of `L2A::GLOBAL::Global`
(`l2a_global.h` member variables).  `ai::FilePath` values are modelled by
their full-path strings.  The non-persisted members (`application_data_path_`,
`l2a_item_last_input_`, `is_testing_`) play no role in the claims. -/
structure Global where
  latex_bin_path_ : String
  latex_engine_ : String
  latex_command_options_ : String
  gs_command_ : String
  warning_boundary_boxes_ : Bool
  warning_ai_not_saved_ : Bool
deriving DecidableEq

/-- Embedding of `Global::ToParameterList` (l2a_global.cpp lines 266-274):
each of the six fields is written under its fixed key name. -/
def Global.ToParameterList (g : Global) (parameter_list : ParameterList) : ParameterList :=
  let pl := SetOption parameter_list "latex_bin_path" (PVal.str g.latex_bin_path_)
  let pl := SetOption pl "latex_engine" (PVal.str g.latex_engine_)
  let pl := SetOption pl "latex_command_options" (PVal.str g.latex_command_options_)
  let pl := SetOption pl "gs_command" (PVal.str g.gs_command_)
  let pl := SetOptionBool pl "warning_boundary_boxes" g.warning_boundary_boxes_
  let pl := SetOptionBool pl "warning_ai_not_saved" g.warning_ai_not_saved_
  pl

/-- Embedding of `Global::GetDefaultParameterList` (l2a_global.cpp lines
289-298): the hardcoded defaults for the six keys.  The method is `const`
and reads no member, so it takes no configuration argument beyond the
parameter list it fills. -/
def GetDefaultParameterList (parameter_list : ParameterList) : ParameterList :=
  let pl := SetOption parameter_list "latex_bin_path" (PVal.str "")
  let pl := SetOption pl "latex_engine" (PVal.str "pdflatex")
  let pl := SetOption pl "latex_command_options"
    (PVal.str "-interaction nonstopmode -halt-on-error -file-line-error")
  let pl := SetOption pl "gs_command" (PVal.str "")
  let pl := SetOptionBool pl "warning_boundary_boxes" true
  let pl := SetOptionBool pl "warning_ai_not_saved" true
  pl

/-- Embedding of `Global::SetFromParameterList` (l2a_global.cpp lines
303-344): every present key overwrites its field, every absent key leaves the
field untouched and clears the `set_all` flag; the final flag is returned.
The function is total: no error can be raised. -/
def Global.SetFromParameterList (g : Global) (parameter_list : ParameterList) : Global × Bool :=
  let set_all := true
  let (g, set_all) :=
    if OptionExists parameter_list "latex_bin_path" then
      ({g with latex_bin_path_ := GetStringOption parameter_list "latex_bin_path"}, set_all)
    else (g, false)
  let (g, set_all) :=
    if OptionExists parameter_list "latex_engine" then
      ({g with latex_engine_ := GetStringOption parameter_list "latex_engine"}, set_all)
    else (g, false)
  let (g, set_all) :=
    if OptionExists parameter_list "latex_command_options" then
      ({g with latex_command_options_ := GetStringOption parameter_list "latex_command_options"}, set_all)
    else (g, false)
  let (g, set_all) :=
    if OptionExists parameter_list "gs_command" then
      ({g with gs_command_ := GetStringOption parameter_list "gs_command"}, set_all)
    else (g, false)
  let (g, set_all) :=
    if OptionExists parameter_list "warning_boundary_boxes" then
      ({g with warning_boundary_boxes_ := cppBool (GetIntOption parameter_list "warning_boundary_boxes")}, set_all)
    else (g, false)
  let (g, set_all) :=
    if OptionExists parameter_list "warning_ai_not_saved" then
      ({g with warning_ai_not_saved_ := cppBool (GetIntOption parameter_list "warning_ai_not_saved")}, set_all)
    else (g, false)
  (g, set_all)

/-- An arbitrary pre-construction state (the C++ members before the
constructor seeds the defaults; every field is immediately overwritten by
`SetFromParameterList(GetDefaultParameterList())`). -/
def initGlobal : Global := ⟨"", "", "", "", false, false⟩

/-- The all-defaults configuration: the state after the constructor seeds the
hardcoded defaults (l2a_global.cpp lines 62-64). -/
def defaultGlobal : Global :=
  (initGlobal.SetFromParameterList (GetDefaultParameterList [])).1

/-- C1: encoding any configuration with `ToParameterList` and decoding with
`SetFromParameterList` (from any prior state) reproduces exactly the six
field values and reports a complete load: the key sets written and read
coincide. -/
theorem roundtrip_six_fields (g h : Global) :
    Global.SetFromParameterList h (Global.ToParameterList g []) = (g, true) := by
  cases g with
  | mk a b c d e f =>
    cases h
    cases e <;> cases f <;> rfl

/-- C2: for each of the six recognized keys, decoding a parameter list
missing exactly that key into the all-defaults configuration leaves the
missing key's field at its default, overwrites every field whose key is
present, and returns `false`; the decode is total, so no error is raised. -/
theorem missing_single_key (g : Global) :
    (Global.SetFromParameterList defaultGlobal (removeKey "latex_bin_path" (Global.ToParameterList g [])) =
      ({g with latex_bin_path_ := defaultGlobal.latex_bin_path_}, false)) ∧
    (Global.SetFromParameterList defaultGlobal (removeKey "latex_engine" (Global.ToParameterList g [])) =
      ({g with latex_engine_ := defaultGlobal.latex_engine_}, false)) ∧
    (Global.SetFromParameterList defaultGlobal (removeKey "latex_command_options" (Global.ToParameterList g [])) =
      ({g with latex_command_options_ := defaultGlobal.latex_command_options_}, false)) ∧
    (Global.SetFromParameterList defaultGlobal (removeKey "gs_command" (Global.ToParameterList g [])) =
      ({g with gs_command_ := defaultGlobal.gs_command_}, false)) ∧
    (Global.SetFromParameterList defaultGlobal (removeKey "warning_boundary_boxes" (Global.ToParameterList g [])) =
      ({g with warning_boundary_boxes_ := defaultGlobal.warning_boundary_boxes_}, false)) ∧
    (Global.SetFromParameterList defaultGlobal (removeKey "warning_ai_not_saved" (Global.ToParameterList g [])) =
      ({g with warning_ai_not_saved_ := defaultGlobal.warning_ai_not_saved_}, false)) := by
  cases g with
  | mk a b c d e f =>
    cases e <;> cases f <;> exact ⟨rfl, rfl, rfl, rfl, rfl, rfl⟩

/-- Outcome of parsing the settings file's text as a parameter list:
the codec either yields a key/value map or throws (`L2A::ERR::Exception`). -/
inductive ParseOutcome where
  | ok (pl : ParameterList)
  | corrupt
deriving DecidableEq

/-- Observable outcome of the settings-loading block of the constructor:
the configuration afterwards, whether the settings file was removed from
disk, and whether the partial-load warning was shown. -/
structure LoadTrace where
  g : Global
  removed_file : Bool
  warned : Bool
deriving DecidableEq

/-- Embedding of the settings-loading block of `Global::Global`
(l2a_global.cpp lines 78-100): if the settings file exists its contents are
parsed; on success the list is overlaid via `SetFromParameterList` (warning
when incomplete), on a parse exception the file is removed and the prior
state (the seeded defaults) is kept.  The function is total: the exception
is caught inside the block and never escapes the constructor. -/
def LoadSettings (g0 : Global) (file_exists : Bool) (parsed : ParseOutcome) : LoadTrace :=
  if file_exists then
    match parsed with
    | ParseOutcome.ok pl =>
      let (g, set_all) := g0.SetFromParameterList pl
      { g := g, removed_file := false, warned := !set_all }
    | ParseOutcome.corrupt =>
      { g := g0, removed_file := true, warned := false }
  else
    { g := g0, removed_file := false, warned := false }

/-- C3: if the settings file exists but fails to parse, the constructor
(whose state at that point is the seeded all-defaults configuration) removes
the file, shows no warning, and continues with the all-defaults
configuration; `LoadSettings` is total, so the corrupt file never makes
construction hard-fail. -/
theorem corrupt_settings_removed_defaults_kept :
    (∀ g0 : Global, LoadSettings g0 true ParseOutcome.corrupt = ⟨g0, true, false⟩) ∧
    (initGlobal.SetFromParameterList (GetDefaultParameterList [])).1 = defaultGlobal ∧
    LoadSettings defaultGlobal true ParseOutcome.corrupt = ⟨defaultGlobal, true, false⟩ :=
  ⟨fun _ => rfl, rfl, rfl⟩

/-- Boolean test whether `pat` occurs as a contiguous sublist of `l`. -/
def listContains (pat : List Char) : List Char → Bool
  | [] => pat.isEmpty
  | c :: rest => pat.isPrefixOf (c :: rest) || listContains pat rest

/-- `s.find(pat) != std::string::npos` for `ai::UnicodeString`: `pat` occurs
as a substring of `s`. -/
def containsSubstr (s pat : String) : Bool :=
  listContains pat.toList s.toList

/-- The shared try/execute/inspect block of the two validation predicates
(l2a_global.cpp lines 178-189 and 249-260): run `cmd` through the
command-execution collaborator `exec` (an oracle: `some output` models a run
that captured `output`, `none` models any execution failure, which the C++
`catch (...)` normalizes to `false`) and report whether the captured output
contains `marker`, together with the list of command lines handed to the
collaborator. -/
def runMarker (exec : String → Option String) (cmd marker : String) : Bool × List String :=
  match exec cmd with
  | some out => (containsSubstr out marker, [cmd])
  | none => (false, [cmd])

/-- The collaborator is invoked exactly once, on the built command line. -/
theorem runMarker_trace (exec : String → Option String) (cmd marker : String) :
    (runMarker exec cmd marker).2 = [cmd] := by
  unfold runMarker
  cases exec cmd <;> rfl

/-- The block yields true iff the run captured output containing the
marker. -/
theorem runMarker_true_iff (exec : String → Option String) (cmd marker : String) :
    (runMarker exec cmd marker).1 = true ↔
      ∃ out, exec cmd = some out ∧ containsSubstr out marker = true := by
  unfold runMarker
  cases h : exec cmd with
  | none => simp
  | some out =>
    simp only [Option.some.injEq]
    constructor
    · intro hc
      exact ⟨out, rfl, hc⟩
    · rintro ⟨out2, hout, hc⟩
      subst hout
      exact hc

/-- Embedding of `Global::CheckGhostscriptCommand` (l2a_global.cpp lines
173-190), instrumented with the list of command lines handed to the
command-execution collaborator.  The method is `const` and reads no member
(`_self` is unused), so it can mutate no field. -/
def Global.CheckGhostscriptCommandRun (_self : Global) (exec : String → Option String)
    (gs_command : String) : Bool × List String :=
  let full_gs_command := "\"" ++ gs_command ++ "\" -v"
  runMarker exec full_gs_command " Ghostscript "

/-- The boolean result of `Global::CheckGhostscriptCommand`. -/
def Global.CheckGhostscriptCommand (self : Global) (exec : String → Option String)
    (gs_command : String) : Bool :=
  (self.CheckGhostscriptCommandRun exec gs_command).1

/-- C4: `CheckGhostscriptCommand` hands the collaborator exactly the command
line `"<candidate>" -v`, returns true iff the captured output contains the
marker `" Ghostscript "`, and returns false on every execution failure; it
never propagates an exception (it is total) and, being independent of the
configuration object, mutates no field. -/
theorem ghostscript_check_spec (self : Global) (exec : String → Option String) (c : String) :
    (self.CheckGhostscriptCommandRun exec c).2 = ["\"" ++ c ++ "\" -v"] ∧
    (self.CheckGhostscriptCommand exec c = true ↔
      ∃ out, exec ("\"" ++ c ++ "\" -v") = some out ∧ containsSubstr out " Ghostscript " = true) ∧
    (∀ other : Global, other.CheckGhostscriptCommandRun exec c = self.CheckGhostscriptCommandRun exec c) := by
  refine ⟨?_, ?_, fun other => rfl⟩
  · exact runMarker_trace exec ("\"" ++ c ++ "\" -v") " Ghostscript "
  · exact runMarker_true_iff exec ("\"" ++ c ++ "\" -v") " Ghostscript "

/-- The model of `ai::FilePath::AddComponent` followed by `GetFullPath`:
append one path component. -/
def addComponent (p c : String) : String := p ++ "/" ++ c

/-- The platform-dependent engine binary filename of
`Global::CheckLatexCommand` (`pdflatex.exe` under `WIN_ENV`, `pdflatex`
otherwise). -/
def latexBinaryName (win : Bool) : String :=
  if win then "pdflatex.exe" else "pdflatex"

/-- Embedding of `Global::CheckLatexCommand` (l2a_global.cpp lines 228-261),
instrumented with the list of command lines handed to the command-execution
collaborator.  `win` selects the `WIN_ENV` compile-time branch, `isDir` is
the filesystem oracle for `L2A::UTIL::IsDirectory`, and `exec` is the
command-execution oracle (`none` models any execution failure, which the
C++ `catch (...)` normalizes to `false`).  The method is `const` and reads no
member (`_self` is unused). -/
def Global.CheckLatexCommandRun (_self : Global) (win : Bool) (isDir : String → Bool)
    (exec : String → Option String) (path_latex : String) : Bool × List String :=
  if isDir path_latex then
    let exe_path := addComponent path_latex (latexBinaryName win)
    runMarker exec ("\"" ++ exe_path ++ "\"" ++ " -version") "pdfTeX"
  else if path_latex = "" then
    runMarker exec ("pdflatex" ++ " -version") "pdfTeX"
  else
    (false, [])

/-- The boolean result of `Global::CheckLatexCommand`. -/
def Global.CheckLatexCommand (self : Global) (win : Bool) (isDir : String → Bool)
    (exec : String → Option String) (path_latex : String) : Bool :=
  (self.CheckLatexCommandRun win isDir exec path_latex).1

/-- C5: `CheckLatexCommand` with a non-empty candidate that is not a
directory returns false without invoking the execution collaborator; with an
empty candidate it invokes the bare command name `pdflatex`; with a directory
candidate it invokes the quoted `<dir>/<engine-binary>` with the
platform-dependent binary name; and whenever it executes, it returns true
iff the captured output contains the marker `pdfTeX`, false on execution
failure. -/
theorem latex_check_spec (self : Global) (win : Bool) (isDir : String → Bool)
    (exec : String → Option String) (p : String) :
    (isDir p = false → p ≠ "" →
      self.CheckLatexCommandRun win isDir exec p = (false, [])) ∧
    (isDir p = false → p = "" →
      (self.CheckLatexCommandRun win isDir exec p).2 = ["pdflatex -version"]) ∧
    (isDir p = true →
      (self.CheckLatexCommandRun win isDir exec p).2 =
        ["\"" ++ p ++ "/" ++ latexBinaryName win ++ "\" -version"]) ∧
    (self.CheckLatexCommand win isDir exec p = true ↔
      ∃ cmd out, (self.CheckLatexCommandRun win isDir exec p).2 = [cmd] ∧
        exec cmd = some out ∧ containsSubstr out "pdfTeX" = true) := by
  unfold Global.CheckLatexCommand Global.CheckLatexCommandRun addComponent
  refine ⟨?_, ?_, ?_, ?_⟩
  · intro hd hp
    simp [hd, hp]
  · intro hd hp
    subst hp
    simp [hd, runMarker_trace]
  · intro hd
    simp [hd, runMarker_trace, String.append_assoc]
  · by_cases hd : isDir p
    · simp [hd, runMarker_trace, runMarker_true_iff]
    · by_cases hp : p = ""
      · subst hp
        simp [hd, runMarker_trace, runMarker_true_iff]
      · simp [hd, hp]

/-- A concrete execution oracle whose captured output never contains any
marker (models a failing launch). -/
def execFail : String → Option String := fun _ => none

/-- A concrete execution oracle capturing typical `pdflatex -version`
output. -/
def execPdfTeX : String → Option String :=
  fun _ => some "pdfTeX 3.141592653-2.6-1.40.24 (TeX Live 2022)"

/-- A concrete execution oracle capturing typical `gs -v` output. -/
def execGhostscript : String → Option String :=
  fun _ => some "GPL Ghostscript 9.56.1 (2022-04-04)"

/-- A concrete filesystem oracle with no directories. -/
def isDirNone : String → Bool := fun _ => false

/-- A concrete filesystem oracle where every path is a directory. -/
def isDirAll : String → Bool := fun _ => true

/-- Witness for C5 at concrete inputs: the three invocation shapes of
`CheckLatexCommandRun`. -/
theorem latex_check_spec_witness :
    Global.CheckLatexCommandRun initGlobal true isDirNone execPdfTeX "C:/nodir" = (false, []) ∧
    (Global.CheckLatexCommandRun initGlobal true isDirNone execPdfTeX "").2 = ["pdflatex -version"] ∧
    (Global.CheckLatexCommandRun initGlobal true isDirAll execPdfTeX "C:/texlive").2 =
      ["\"C:/texlive/" ++ latexBinaryName true ++ "\" -version"] :=
  ⟨(latex_check_spec initGlobal true isDirNone execPdfTeX "C:/nodir").1 rfl (by decide),
   (latex_check_spec initGlobal true isDirNone execPdfTeX "").2.1 rfl rfl,
   (latex_check_spec initGlobal true isDirAll execPdfTeX "C:/texlive").2.2.1 rfl⟩

/-- C9: the boolean result and the built command line of `CheckLatexCommand`
are independent of the configured logical engine selector: two
configurations differing only in `latex_engine_` produce identical
`CheckLatexCommandRun` outcomes (the member is never read by the
validation). -/
theorem latex_check_engine_independent (g : Global) (e : String) (win : Bool)
    (isDir : String → Bool) (exec : String → Option String) (p : String) :
    Global.CheckLatexCommandRun {g with latex_engine_ := e} win isDir exec p =
      Global.CheckLatexCommandRun g win isDir exec p ∧
    Global.CheckLatexCommand {g with latex_engine_ := e} win isDir exec p =
      Global.CheckLatexCommand g win isDir exec p :=
  ⟨rfl, rfl⟩

/-- Result of the file/directory picker dialog: a picked path, a user
cancellation (`kCanceledErr`), or any other dialog error (which
`l2a_check_ai_error` turns into a thrown exception). -/
inductive DialogResult where
  | picked (path : String)
  | cancelled
  | err
deriving DecidableEq

/-- One round of user interaction inside a repair loop: the answer to the
OK/Cancel confirmation alert and, if OK, the outcome of the picker dialog. -/
structure UserResponse where
  ok_cancel : Bool
  dialog : DialogResult
deriving DecidableEq

/-- Outcome of a repair-setter call: success (`return true`, with the updated
configuration), a user cancellation (`return false`, configuration
unchanged), or a propagated fatal dialog error. -/
inductive RepairOutcome where
  | success (g : Global)
  | cancelled (g : Global)
  | fatalErr
deriving DecidableEq

/-- Embedding of the `while` loop of `Global::SetGhostscriptCommand`
(l2a_global.cpp lines 146-167) over a finite list of user responses: while
the candidate fails validation, consume one response (Cancel at the alert or
the picker returns failure with no field mutated, a dialog error propagates,
a picked file becomes the new candidate); once validation passes, the
candidate is committed to `gs_command_`.  `none` models a run whose
responses are exhausted while the loop is still going. -/
def sgcLoop (exec : String → Option String) (self : Global) :
    List UserResponse → String → Option RepairOutcome
  | responses, gs_command =>
    if Global.CheckGhostscriptCommand self exec gs_command then
      some (RepairOutcome.success {self with gs_command_ := gs_command})
    else
      match responses with
      | [] => none
      | r :: rest =>
        if r.ok_cancel = false then some (RepairOutcome.cancelled self)
        else
          match r.dialog with
          | DialogResult.cancelled => some (RepairOutcome.cancelled self)
          | DialogResult.err => some RepairOutcome.fatalErr
          | DialogResult.picked gs_path => sgcLoop exec self rest gs_path

/-- Embedding of `Global::SetGhostscriptCommand` (l2a_global.cpp lines
141-168). -/
def Global.SetGhostscriptCommand (self : Global) (exec : String → Option String)
    (gs_command : String) (responses : List UserResponse) : Option RepairOutcome :=
  sgcLoop exec self responses gs_command

/-- Embedding of the `while` loop of `Global::SetLatexCommand`
(l2a_global.cpp lines 204-222), structurally identical to the ghostscript
loop but validating with `CheckLatexCommand`, picking a directory, and
committing to `latex_bin_path_`. -/
def slcLoop (win : Bool) (isDir : String → Bool) (exec : String → Option String)
    (self : Global) : List UserResponse → String → Option RepairOutcome
  | responses, path =>
    if Global.CheckLatexCommand self win isDir exec path then
      some (RepairOutcome.success {self with latex_bin_path_ := path})
    else
      match responses with
      | [] => none
      | r :: rest =>
        if r.ok_cancel = false then some (RepairOutcome.cancelled self)
        else
          match r.dialog with
          | DialogResult.cancelled => some (RepairOutcome.cancelled self)
          | DialogResult.err => some RepairOutcome.fatalErr
          | DialogResult.picked p2 => slcLoop win isDir exec self rest p2

/-- Embedding of `Global::SetLatexCommand` (l2a_global.cpp lines 195-223):
under `WIN_ENV` the caller-supplied path is the initial candidate, otherwise
the fixed directory `/Library/TeX/texbin` is used unconditionally. -/
def Global.SetLatexCommand (self : Global) (win : Bool) (isDir : String → Bool)
    (exec : String → Option String) (latex_path : String)
    (responses : List UserResponse) : Option RepairOutcome :=
  slcLoop win isDir exec self responses
    (if win then latex_path else "/Library/TeX/texbin")

/-- Loop invariant of the ghostscript repair loop: a success outcome differs
from the starting configuration at most in `gs_command_` and carries a
candidate that passed validation; a cancelled outcome returns the starting
configuration unchanged. -/
theorem sgcLoop_spec (exec : String → Option String) (self : Global)
    (responses : List UserResponse) : ∀ (cmd : String) (g' : Global),
    (sgcLoop exec self responses cmd = some (RepairOutcome.success g') →
      g' = {self with gs_command_ := g'.gs_command_} ∧
      Global.CheckGhostscriptCommand self exec g'.gs_command_ = true) ∧
    (sgcLoop exec self responses cmd = some (RepairOutcome.cancelled g') → g' = self) := by
  induction responses with
  | nil =>
    intro cmd g'
    rw [sgcLoop]
    by_cases hc : Global.CheckGhostscriptCommand self exec cmd = true
    · simp only [hc, if_true]
      constructor
      · intro h
        obtain rfl : ({self with gs_command_ := cmd} : Global) = g' := by
          simpa using h
        exact ⟨rfl, hc⟩
      · intro h
        simp at h
    · simp [hc]
  | cons r rest ih =>
    intro cmd g'
    rw [sgcLoop]
    by_cases hc : Global.CheckGhostscriptCommand self exec cmd = true
    · simp only [hc, if_true]
      constructor
      · intro h
        obtain rfl : ({self with gs_command_ := cmd} : Global) = g' := by
          simpa using h
        exact ⟨rfl, hc⟩
      · intro h
        simp at h
    · simp only [hc, if_false, Bool.false_eq_true]
      obtain ⟨ok, dlg⟩ := r
      cases ok with
      | false =>
        simp only [if_true]
        constructor
        · intro h
          simp at h
        · intro h
          obtain rfl : self = g' := by simpa using h
          rfl
      | true =>
        simp only [if_false]
        cases dlg with
        | cancelled =>
          constructor
          · intro h
            simp at h
          · intro h
            obtain rfl : self = g' := by simpa using h
            rfl
        | err =>
          constructor
          · intro h
            simp at h
          · intro h
            simp at h
        | picked p2 =>
          exact ih p2 g'

/-- Loop invariant of the latex repair loop: a success outcome differs from
the starting configuration at most in `latex_bin_path_` and carries a
candidate that passed validation; a cancelled outcome returns the starting
configuration unchanged. -/
theorem slcLoop_spec (win : Bool) (isDir : String → Bool) (exec : String → Option String)
    (self : Global) (responses : List UserResponse) : ∀ (path : String) (g' : Global),
    (slcLoop win isDir exec self responses path = some (RepairOutcome.success g') →
      g' = {self with latex_bin_path_ := g'.latex_bin_path_} ∧
      Global.CheckLatexCommand self win isDir exec g'.latex_bin_path_ = true) ∧
    (slcLoop win isDir exec self responses path = some (RepairOutcome.cancelled g') → g' = self) := by
  induction responses with
  | nil =>
    intro path g'
    rw [slcLoop]
    by_cases hc : Global.CheckLatexCommand self win isDir exec path = true
    · simp only [hc, if_true]
      constructor
      · intro h
        obtain rfl : ({self with latex_bin_path_ := path} : Global) = g' := by
          simpa using h
        exact ⟨rfl, hc⟩
      · intro h
        simp at h
    · simp [hc]
  | cons r rest ih =>
    intro path g'
    rw [slcLoop]
    by_cases hc : Global.CheckLatexCommand self win isDir exec path = true
    · simp only [hc, if_true]
      constructor
      · intro h
        obtain rfl : ({self with latex_bin_path_ := path} : Global) = g' := by
          simpa using h
        exact ⟨rfl, hc⟩
      · intro h
        simp at h
    · simp only [hc, if_false, Bool.false_eq_true]
      obtain ⟨ok, dlg⟩ := r
      cases ok with
      | false =>
        simp only [if_true]
        constructor
        · intro h
          simp at h
        · intro h
          obtain rfl : self = g' := by simpa using h
          rfl
      | true =>
        simp only [if_false]
        cases dlg with
        | cancelled =>
          constructor
          · intro h
            simp at h
          · intro h
            obtain rfl : self = g' := by simpa using h
            rfl
        | err =>
          constructor
          · intro h
            simp at h
          · intro h
            simp at h
        | picked p2 =>
          exact ih p2 g'

/-- C6: for every sequence of user responses and validation outcomes, each
repair-setter mutates its field at most once and only to a candidate that
passed validation ( a success outcome equals the start state except possibly
in that one field, whose new value validates), and a cancellation at the
OK/Cancel alert or at the picker returns failure with the configuration
unchanged. -/
theorem repair_setters_validate_before_commit (exec : String → Option String)
    (g : Global) (c : String) (responses : List UserResponse) (win : Bool)
    (isDir : String → Bool) (p : String) (responses2 : List UserResponse) :
    (∀ g', g.SetGhostscriptCommand exec c responses = some (RepairOutcome.success g') →
      g' = {g with gs_command_ := g'.gs_command_} ∧
      Global.CheckGhostscriptCommand g exec g'.gs_command_ = true) ∧
    (∀ g', g.SetGhostscriptCommand exec c responses = some (RepairOutcome.cancelled g') →
      g' = g) ∧
    (∀ g', g.SetLatexCommand win isDir exec p responses2 = some (RepairOutcome.success g') →
      g' = {g with latex_bin_path_ := g'.latex_bin_path_} ∧
      Global.CheckLatexCommand g win isDir exec g'.latex_bin_path_ = true) ∧
    (∀ g', g.SetLatexCommand win isDir exec p responses2 = some (RepairOutcome.cancelled g') →
      g' = g) :=
  ⟨fun g' => (sgcLoop_spec exec g responses c g').1,
   fun g' => (sgcLoop_spec exec g responses c g').2,
   fun g' => (slcLoop_spec win isDir exec g responses2
      (if win then p else "/Library/TeX/texbin") g').1,
   fun g' => (slcLoop_spec win isDir exec g responses2
      (if win then p else "/Library/TeX/texbin") g').2⟩

/-- Witness for C6 at concrete inputs: a ghostscript repair that succeeds
immediately commits a validated candidate, and a latex repair cancelled at
the alert leaves the configuration unchanged. -/
theorem repair_setters_validate_before_commit_witness :
    (({defaultGlobal with gs_command_ := "mygs"} : Global) =
        {defaultGlobal with gs_command_ := "mygs"} ∧
      Global.CheckGhostscriptCommand defaultGlobal execGhostscript "mygs" = true) ∧
    defaultGlobal = defaultGlobal :=
  ⟨(repair_setters_validate_before_commit execGhostscript defaultGlobal "mygs" []
      true isDirNone "somewhere" [⟨false, DialogResult.cancelled⟩]).1
      {defaultGlobal with gs_command_ := "mygs"} (by decide),
   (repair_setters_validate_before_commit execGhostscript defaultGlobal "mygs" []
      true isDirNone "somewhere" [⟨false, DialogResult.cancelled⟩]).2.2.2
      defaultGlobal (by decide)⟩

/-- C10: frame property of the repair-setters: on every outcome that yields
a configuration (success or cancellation), `SetGhostscriptCommand` leaves
all fields other than `gs_command_` unchanged and `SetLatexCommand` leaves
all fields other than `latex_bin_path_` unchanged. -/
theorem repair_setters_frame (exec : String → Option String)
    (g : Global) (c : String) (responses : List UserResponse) (win : Bool)
    (isDir : String → Bool) (p : String) (responses2 : List UserResponse) :
    (∀ g', (g.SetGhostscriptCommand exec c responses = some (RepairOutcome.success g') ∨
            g.SetGhostscriptCommand exec c responses = some (RepairOutcome.cancelled g')) →
      g'.latex_bin_path_ = g.latex_bin_path_ ∧
      g'.latex_engine_ = g.latex_engine_ ∧
      g'.latex_command_options_ = g.latex_command_options_ ∧
      g'.warning_boundary_boxes_ = g.warning_boundary_boxes_ ∧
      g'.warning_ai_not_saved_ = g.warning_ai_not_saved_) ∧
    (∀ g', (g.SetLatexCommand win isDir exec p responses2 = some (RepairOutcome.success g') ∨
            g.SetLatexCommand win isDir exec p responses2 = some (RepairOutcome.cancelled g')) →
      g'.latex_engine_ = g.latex_engine_ ∧
      g'.latex_command_options_ = g.latex_command_options_ ∧
      g'.gs_command_ = g.gs_command_ ∧
      g'.warning_boundary_boxes_ = g.warning_boundary_boxes_ ∧
      g'.warning_ai_not_saved_ = g.warning_ai_not_saved_) := by
  constructor
  · intro g' h
    cases h with
    | inl hs =>
      obtain ⟨hshape, _⟩ := (sgcLoop_spec exec g responses c g').1 hs
      rw [hshape]
      exact ⟨rfl, rfl, rfl, rfl, rfl⟩
    | inr hcnc =>
      have := (sgcLoop_spec exec g responses c g').2 hcnc
      rw [this]
      exact ⟨rfl, rfl, rfl, rfl, rfl⟩
  · intro g' h
    cases h with
    | inl hs =>
      obtain ⟨hshape, _⟩ := (slcLoop_spec win isDir exec g responses2
        (if win then p else "/Library/TeX/texbin") g').1 hs
      rw [hshape]
      exact ⟨rfl, rfl, rfl, rfl, rfl⟩
    | inr hcnc =>
      have := (slcLoop_spec win isDir exec g responses2
        (if win then p else "/Library/TeX/texbin") g').2 hcnc
      rw [this]
      exact ⟨rfl, rfl, rfl, rfl, rfl⟩

/-- Witness for C10 at concrete inputs: a successful latex repair on the
non-Windows branch changes none of the other five fields. -/
theorem repair_setters_frame_witness :
    (({defaultGlobal with latex_bin_path_ := "/Library/TeX/texbin"} : Global).latex_engine_ =
        defaultGlobal.latex_engine_ ∧
      ({defaultGlobal with latex_bin_path_ := "/Library/TeX/texbin"} : Global).latex_command_options_ =
        defaultGlobal.latex_command_options_ ∧
      ({defaultGlobal with latex_bin_path_ := "/Library/TeX/texbin"} : Global).gs_command_ =
        defaultGlobal.gs_command_ ∧
      ({defaultGlobal with latex_bin_path_ := "/Library/TeX/texbin"} : Global).warning_boundary_boxes_ =
        defaultGlobal.warning_boundary_boxes_ ∧
      ({defaultGlobal with latex_bin_path_ := "/Library/TeX/texbin"} : Global).warning_ai_not_saved_ =
        defaultGlobal.warning_ai_not_saved_) :=
  (repair_setters_frame execPdfTeX defaultGlobal "gs" [] false isDirAll
      "ignored" []).2
    {defaultGlobal with latex_bin_path_ := "/Library/TeX/texbin"}
    (Or.inl (by decide))

/-- Observable outcome of the toolchain-validation steps of the constructor:
the resulting configuration, whether the ghostscript repair-setter was
invoked, whether the latex validation step was reached, and the argument the
latex repair-setter was invoked with (if it was). -/
structure CtorResult where
  g : Global
  gs_repaired : Bool
  latex_checked : Bool
  latex_repair_arg : Option String
deriving DecidableEq

/-- How the validation steps of the constructor end: the constructor body
runs to an end (possibly through an early `return`), a dialog error
propagates out, or the simulated user responses end while a repair loop is
still running. -/
inductive CtorOutcome where
  | finished (r : CtorResult)
  | fatal
  | nonterm
deriving DecidableEq

/-- Embedding of the latex step of `Global::Global` (l2a_global.cpp lines
116-124): if the stored path fails validation it is first reset to the empty
path, then the repair-setter is attempted on that member (so the setter's
argument is the empty path).  `gs_repaired` is threaded through for the
trace. -/
def latexStep (win : Bool) (isDir : String → Bool) (exec : String → Option String)
    (latex_responses : List UserResponse) (gs_repaired : Bool) (g : Global) : CtorOutcome :=
  if Global.CheckLatexCommand g win isDir exec g.latex_bin_path_ then
    CtorOutcome.finished ⟨g, gs_repaired, true, none⟩
  else
    let g2 : Global := {g with latex_bin_path_ := ""}
    match g2.SetLatexCommand win isDir exec "" latex_responses with
    | none => CtorOutcome.nonterm
    | some RepairOutcome.fatalErr => CtorOutcome.fatal
    | some (RepairOutcome.cancelled g') => CtorOutcome.finished ⟨g', gs_repaired, true, some ""⟩
    | some (RepairOutcome.success g') => CtorOutcome.finished ⟨g', gs_repaired, true, some ""⟩

/-- Embedding of the toolchain-validation steps of `Global::Global`
(l2a_global.cpp lines 106-124): first the stored ghostscript command is
validated, with a failed validation followed by the repair-setter on the
auto-discovered candidate `gs_auto` (`L2A::UTIL::GetGhostScriptCommand`);
if that repair returns failure the constructor returns early and the latex
step is never executed.  Otherwise the latex step follows. -/
def ValidatePhase (win : Bool) (isDir : String → Bool) (exec : String → Option String)
    (gs_auto : String) (gs_responses latex_responses : List UserResponse)
    (g : Global) : CtorOutcome :=
  if Global.CheckGhostscriptCommand g exec g.gs_command_ then
    latexStep win isDir exec latex_responses false g
  else
    match g.SetGhostscriptCommand exec gs_auto gs_responses with
    | none => CtorOutcome.nonterm
    | some RepairOutcome.fatalErr => CtorOutcome.fatal
    | some (RepairOutcome.cancelled g') => CtorOutcome.finished ⟨g', true, false, none⟩
    | some (RepairOutcome.success g') => latexStep win isDir exec latex_responses true g'

/-- C7: if the stored ghostscript command fails validation and the
repair-setter on the auto-discovered candidate returns failure, the
constructor aborts the remaining steps with the latex validation never
executed; symmetrically, whenever the latex validation fails, the stored
path is reset to the empty path before the repair-setter is attempted (the
setter receives the empty path, and a cancelled repair leaves the member at
the empty path). -/
theorem ctor_validation_abort_and_reset (win : Bool) (isDir : String → Bool)
    (exec : String → Option String) (gs_auto : String)
    (gs_responses latex_responses : List UserResponse) (g : Global) :
    (∀ gc, Global.CheckGhostscriptCommand g exec g.gs_command_ = false →
      g.SetGhostscriptCommand exec gs_auto gs_responses = some (RepairOutcome.cancelled gc) →
      ValidatePhase win isDir exec gs_auto gs_responses latex_responses g =
        CtorOutcome.finished ⟨gc, true, false, none⟩) ∧
    (∀ gs_repaired, Global.CheckLatexCommand g win isDir exec g.latex_bin_path_ = false →
      latexStep win isDir exec latex_responses gs_repaired g = CtorOutcome.nonterm ∨
      latexStep win isDir exec latex_responses gs_repaired g = CtorOutcome.fatal ∨
      ∃ r, latexStep win isDir exec latex_responses gs_repaired g = CtorOutcome.finished r ∧
        r.latex_repair_arg = some "") ∧
    (∀ gs_repaired gc, Global.CheckLatexCommand g win isDir exec g.latex_bin_path_ = false →
      Global.SetLatexCommand {g with latex_bin_path_ := ""} win isDir exec "" latex_responses =
        some (RepairOutcome.cancelled gc) →
      latexStep win isDir exec latex_responses gs_repaired g =
        CtorOutcome.finished ⟨gc, gs_repaired, true, some ""⟩ ∧
      gc.latex_bin_path_ = "") := by
  refine ⟨?_, ?_, ?_⟩
  · intro gc hchk hset
    unfold ValidatePhase
    rw [hchk]
    simp only [Bool.false_eq_true, if_false]
    rw [hset]
  · intro gs_repaired hchk
    unfold latexStep
    rw [hchk]
    simp only [Bool.false_eq_true, if_false]
    cases hset : Global.SetLatexCommand {g with latex_bin_path_ := ""} win isDir exec ""
        latex_responses with
    | none => exact Or.inl rfl
    | some out =>
      cases out with
      | fatalErr => exact Or.inr (Or.inl rfl)
      | cancelled g' => exact Or.inr (Or.inr ⟨_, rfl, rfl⟩)
      | success g' => exact Or.inr (Or.inr ⟨_, rfl, rfl⟩)
  · intro gs_repaired gc hchk hset
    unfold latexStep
    rw [hchk]
    simp only [Bool.false_eq_true, if_false]
    rw [hset]
    refine ⟨rfl, ?_⟩
    have hgc : gc = ({g with latex_bin_path_ := ""} : Global) :=
      (slcLoop_spec win isDir exec {g with latex_bin_path_ := ""} latex_responses
        (if win then "" else "/Library/TeX/texbin") gc).2 hset
    rw [hgc]

/-- Witness for C7 at concrete inputs: a failing ghostscript validation
whose repair is cancelled aborts before the latex step, and a failing latex
validation resets the path to empty before the (cancelled) repair. -/
theorem ctor_validation_abort_and_reset_witness :
    ValidatePhase true isDirNone execFail "gs-auto" [⟨false, DialogResult.cancelled⟩]
        [⟨false, DialogResult.cancelled⟩] defaultGlobal =
      CtorOutcome.finished ⟨defaultGlobal, true, false, none⟩ ∧
    (latexStep true isDirNone execFail [⟨false, DialogResult.cancelled⟩] false defaultGlobal =
      CtorOutcome.finished ⟨defaultGlobal, false, true, some ""⟩ ∧
    defaultGlobal.latex_bin_path_ = "") :=
  ⟨(ctor_validation_abort_and_reset true isDirNone execFail "gs-auto"
      [⟨false, DialogResult.cancelled⟩] [⟨false, DialogResult.cancelled⟩] defaultGlobal).1
      defaultGlobal (by decide) (by decide),
   (ctor_validation_abort_and_reset true isDirNone execFail "gs-auto"
      [⟨false, DialogResult.cancelled⟩] [⟨false, DialogResult.cancelled⟩] defaultGlobal).2.2
      false defaultGlobal (by decide) (by decide)⟩

/-- The host plugin object (`L2APlugin`), opaque to this development. -/
structure L2APlugin where
  ref : Unit

/-- Embedding of `L2A::GLOBAL::CheckGlobal` (l2a_global.cpp lines 349-352):
the global instance pointer `_l2a_global` is modelled as an optional value;
a null pointer raises `l2a_error`, modelled as `Except.error`. -/
def CheckGlobal (l2a_global : Option Global) : Except Unit Unit :=
  match l2a_global with
  | none => Except.error ()
  | some _ => Except.ok ()

/-- Embedding of `L2A::GlobalMutable` (l2a_global.cpp lines 362-366): check
the pointer, then dereference it. -/
def GlobalMutable (l2a_global : Option Global) : Except Unit Global :=
  match CheckGlobal l2a_global, l2a_global with
  | Except.error e, _ => Except.error e
  | Except.ok _, some g => Except.ok g
  | Except.ok _, none => Except.error ()

/-- Embedding of the read-only accessor `L2A::Global()` (l2a_global.cpp line
357), which simply returns `GlobalMutable` (named `GlobalConst` here because
the Lean name `Global` denotes the configuration type). -/
def GlobalConst (l2a_global : Option Global) : Except Unit Global :=
  GlobalMutable l2a_global

/-- Embedding of `L2A::GlobalPluginMutable` (l2a_global.cpp lines 371-375):
it checks the *global-instance* pointer via `CheckGlobal`, then dereferences
the plugin pointer (unguarded; the returned value is the pointer it
dereferences). -/
def GlobalPluginMutable (l2a_global : Option Global) (l2a_plugin : Option L2APlugin) :
    Except Unit (Option L2APlugin) :=
  match CheckGlobal l2a_global with
  | Except.error e => Except.error e
  | Except.ok _ => Except.ok l2a_plugin

/-- C8: every process-wide accessor of the configuration singleton (the
read-only accessor, the mutable accessor, and the plugin accessor) raises
an error rather than returning whenever the global instance pointer is
still null. -/
theorem accessors_fail_before_construction :
    GlobalConst none = Except.error () ∧
    GlobalMutable none = Except.error () ∧
    ∀ l2a_plugin : Option L2APlugin,
      GlobalPluginMutable none l2a_plugin = Except.error () :=
  ⟨rfl, rfl, fun _ => rfl⟩

end L2A
